import Mathlib

/-!
Shallow embedding of `app/services/kiro_service.py` (class `KiroService`,
called `AccountProxyService` in the specification).

The module is a pure proxy: each method resolves a per-user credential via
an external repository (`PluginAPIKeyRepository.get_by_user_id`) and a
decryption helper (`decrypt_api_key`), then issues one HTTP request (or one
streaming HTTP request) through `httpx` and relays the result.

External collaborators (credential store, cipher, HTTP transport) are
modelled as an `Env` of abstract functions.  Each method is embedded as a
function from the service value and its arguments to a triple
`(service after the call, trace of observable effects, result)`.  The
trace records credential-store lookups, decryptions, outbound HTTP
requests, connection open/close of the streaming transport, and yielded
byte chunks, in program order.  Python's async generators are embedded by
parametrising the streaming proxy over consumer demand (`consume`): `none`
means the consumer drains the stream, `some k` means it stops (closes the
generator) after `k` chunks; the `async with` blocks of the source close
the connection on every exit path, which the embedding reflects by
emitting `connClose` on each branch.
-/

namespace AntiHub

/-- JSON documents: request/response payloads are opaque mappings of string
keys to arbitrary values, forwarded verbatim by the module. -/
inductive Json where
  | null : Json
  | bool : Bool → Json
  | num : Int → Json
  | str : String → Json
  | arr : List Json → Json
  | obj : List (String × Json) → Json

/-- Python `bytes`: a chunk of a streaming response body. -/
abbrev Bytes := List Nat

/-- A value of the `params` dict passed to `httpx`: the source only ever
puts `int` (limit/offset) or `str` (start_date/end_date) values there. -/
inductive ParamVal where
  | int : Int → ParamVal
  | str : String → ParamVal
deriving DecidableEq

/-- The single (non-streaming) HTTP request assembled by
`KiroService._proxy_request` and handed to `httpx.AsyncClient.request`.
The source passes `timeout=300.0`; the embedding keeps it as the natural
number of seconds. -/
structure Request where
  method : String
  url : String
  json_data : Option Json
  params : Option (List (String × ParamVal))
  headers : List (String × String)
  timeout : Nat

/-- The streaming HTTP request assembled by
`KiroService._proxy_stream_request` and handed to `httpx.AsyncClient.stream`. -/
structure StreamRequest where
  method : String
  url : String
  json_data : Option Json
  headers : List (String × String)
  timeout : Nat

/-- An upstream response to a single (non-streaming) request. -/
structure Response where
  status_code : Nat
  body : Json

/-- `httpx.Response.is_success`: status in the 2xx range;
`raise_for_status` raises `HTTPStatusError` exactly when this is false. -/
def Response.is_success (r : Response) : Bool :=
  decide (200 ≤ r.status_code) && decide (r.status_code < 300)

/-- An upstream streaming response: initial status line, the body the
error would carry on a non-success status, the sequence of byte chunks
`aiter_bytes` delivers on success, and whether the transport fails after
delivering those chunks (mid-stream connection failure). -/
structure StreamResponse where
  status_code : Nat
  body : Json
  chunks : List Bytes
  mid_stream_fail : Bool

/-- 2xx check for the streaming response's initial status line. -/
def StreamResponse.is_success (r : StreamResponse) : Bool :=
  decide (200 ≤ r.status_code) && decide (r.status_code < 300)

/-- The credential record returned by `PluginAPIKeyRepository.get_by_user_id`:
an encrypted key blob and an active flag. -/
structure PluginApiKeyRecord where
  api_key : String
  is_active : Bool

/-- The external collaborators of the module: the credential store, the
decryption helper, and the HTTP transport (single-shot and streaming). -/
structure Env where
  get_by_user_id : Int → Option PluginApiKeyRecord
  decrypt_api_key : String → String
  send : Request → Response
  sendStream : StreamRequest → StreamResponse

/-- The slice of application settings the module reads
(`settings.plugin_api_base_url`). -/
structure Settings where
  plugin_api_base_url : String

/-- `PluginAPIKeyRepository(db)`: a thin wrapper over the database session
(sessions are modelled as opaque handles). -/
structure PluginAPIKeyRepository where
  db : Nat

/-- The fields `KiroService.__init__` stores on `self`. -/
structure KiroService where
  db : Nat
  settings : Settings
  plugin_api_key_repo : PluginAPIKeyRepository
  base_url : String

/-- `KiroService.__init__(db)` with `get_settings()` supplied explicitly. -/
def KiroService.init (db : Nat) (settings : Settings) : KiroService :=
  { db := db
    settings := settings
    plugin_api_key_repo := { db := db }
    base_url := settings.plugin_api_base_url }

/-- The message of the `ValueError` raised by
`KiroService._get_user_plugin_key`; the specification names this failure
`NotConfiguredError`. -/
def keyNotConfiguredMsg : String := "用户未配置插件API密钥"

/-- The failures a proxied call can surface:
`notConfigured` is the `ValueError` from `_get_user_plugin_key`,
`upstream` is `httpx.HTTPStatusError` from `raise_for_status`, carrying
the response's status code and body. -/
inductive ProxyError where
  | notConfigured : String → ProxyError
  | upstream : Nat → Json → ProxyError

/-- Observable effects of a call, in program order. -/
inductive Event where
  | storeLookup : Int → Event
  | decryptKey : String → Event
  | httpRequest : Request → Event
  | connOpen : StreamRequest → Event
  | chunk : Bytes → Event
  | connClose : Event

/-- `KiroService._get_user_plugin_key`: looks up the user's credential
record; raises the `ValueError` if there is no record or the record is
inactive (one merged check, one identical error); otherwise decrypts. -/
def get_user_plugin_key (env : Env) (s : KiroService) (user_id : Int) :
    KiroService × List Event × Except ProxyError String :=
  match env.get_by_user_id user_id with
  | none =>
      (s, [Event.storeLookup user_id],
        Except.error (ProxyError.notConfigured keyNotConfiguredMsg))
  | some key_record =>
      if key_record.is_active then
        (s, [Event.storeLookup user_id, Event.decryptKey key_record.api_key],
          Except.ok (env.decrypt_api_key key_record.api_key))
      else
        (s, [Event.storeLookup user_id],
          Except.error (ProxyError.notConfigured keyNotConfiguredMsg))

/-- `KiroService._proxy_request`: resolve the key, build the request
(`base_url + path`, bearer header, optional JSON body and params, 300 s
timeout), send it once, `raise_for_status`, return the parsed JSON body. -/
def proxy_request (env : Env) (s : KiroService) (user_id : Int) (method : String)
    (path : String) (json_data : Option Json)
    (params : Option (List (String × ParamVal))) :
    KiroService × List Event × Except ProxyError Json :=
  match get_user_plugin_key env s user_id with
  | (s1, tr, Except.error e) => (s1, tr, Except.error e)
  | (s1, tr, Except.ok api_key) =>
      let req : Request :=
        { method := method
          url := s1.base_url ++ path
          json_data := json_data
          params := params
          headers := [("Authorization", "Bearer " ++ api_key)]
          timeout := 300 }
      let resp := env.send req
      if resp.is_success then
        (s1, tr ++ [Event.httpRequest req], Except.ok resp.body)
      else
        (s1, tr ++ [Event.httpRequest req],
          Except.error (ProxyError.upstream resp.status_code resp.body))

/-- Outcome of consuming the stream produced by `_proxy_stream_request`:
the key error, the pre-stream `HTTPStatusError`, early abandonment by the
consumer after the listed chunks, a mid-stream transport failure after the
listed chunks, or normal exhaustion having delivered the listed chunks. -/
inductive StreamOutcome where
  | notConfigured : String → StreamOutcome
  | upstreamError : Nat → Json → StreamOutcome
  | aborted : List Bytes → StreamOutcome
  | transportError : List Bytes → StreamOutcome
  | done : List Bytes → StreamOutcome

/-- `KiroService._proxy_stream_request`, run against a consumer that takes
`consume` chunks (`none`: drains the stream).  The two nested `async with`
blocks scope the connection: it is opened once, and closed on every exit
path — non-success status, normal exhaustion, mid-stream failure, and
early close of the generator by the consumer. -/
def proxy_stream_request (env : Env) (s : KiroService) (user_id : Int)
    (method : String) (path : String) (json_data : Option Json)
    (consume : Option Nat) : KiroService × List Event × StreamOutcome :=
  match get_user_plugin_key env s user_id with
  | (s1, tr, Except.error (ProxyError.notConfigured m)) =>
      (s1, tr, StreamOutcome.notConfigured m)
  | (s1, tr, Except.error (ProxyError.upstream st b)) =>
      (s1, tr, StreamOutcome.upstreamError st b)
  | (s1, tr, Except.ok api_key) =>
      let req : StreamRequest :=
        { method := method
          url := s1.base_url ++ path
          json_data := json_data
          headers := [("Authorization", "Bearer " ++ api_key)]
          timeout := 300 }
      let resp := env.sendStream req
      if resp.is_success then
        match consume with
        | some k =>
            if k < resp.chunks.length then
              (s1, tr ++ [Event.connOpen req]
                    ++ (resp.chunks.take k).map Event.chunk ++ [Event.connClose],
                StreamOutcome.aborted (resp.chunks.take k))
            else
              (s1, tr ++ [Event.connOpen req]
                    ++ resp.chunks.map Event.chunk ++ [Event.connClose],
                if resp.mid_stream_fail then StreamOutcome.transportError resp.chunks
                else StreamOutcome.done resp.chunks)
        | none =>
            (s1, tr ++ [Event.connOpen req]
                  ++ resp.chunks.map Event.chunk ++ [Event.connClose],
              if resp.mid_stream_fail then StreamOutcome.transportError resp.chunks
              else StreamOutcome.done resp.chunks)
      else
        (s1, tr ++ [Event.connOpen req, Event.connClose],
          StreamOutcome.upstreamError resp.status_code resp.body)

/-- `KiroService.get_oauth_authorize_url`. -/
def get_oauth_authorize_url (env : Env) (s : KiroService) (user_id : Int)
    (provider : String) (is_shared : Int) :
    KiroService × List Event × Except ProxyError Json :=
  proxy_request env s user_id "POST" "/api/kiro/oauth/authorize"
    (some (Json.obj [("provider", Json.str provider), ("is_shared", Json.num is_shared)]))
    none

/-- `KiroService.get_oauth_status`. -/
def get_oauth_status (env : Env) (s : KiroService) (user_id : Int) (state : String) :
    KiroService × List Event × Except ProxyError Json :=
  proxy_request env s user_id "GET" ("/api/kiro/oauth/status/" ++ state) none none

/-- `KiroService.create_account`. -/
def create_account (env : Env) (s : KiroService) (user_id : Int) (account_data : Json) :
    KiroService × List Event × Except ProxyError Json :=
  proxy_request env s user_id "POST" "/api/kiro/accounts" (some account_data) none

/-- `KiroService.get_accounts`. -/
def get_accounts (env : Env) (s : KiroService) (user_id : Int) :
    KiroService × List Event × Except ProxyError Json :=
  proxy_request env s user_id "GET" "/api/kiro/accounts" none none

/-- `KiroService.get_account`. -/
def get_account (env : Env) (s : KiroService) (user_id : Int) (account_id : String) :
    KiroService × List Event × Except ProxyError Json :=
  proxy_request env s user_id "GET" ("/api/kiro/accounts/" ++ account_id) none none

/-- `KiroService.update_account_status`. -/
def update_account_status (env : Env) (s : KiroService) (user_id : Int)
    (account_id : String) (status : Int) :
    KiroService × List Event × Except ProxyError Json :=
  proxy_request env s user_id "PUT" ("/api/kiro/accounts/" ++ account_id ++ "/status")
    (some (Json.obj [("status", Json.num status)])) none

/-- `KiroService.update_account_name`. -/
def update_account_name (env : Env) (s : KiroService) (user_id : Int)
    (account_id : String) (account_name : String) :
    KiroService × List Event × Except ProxyError Json :=
  proxy_request env s user_id "PUT" ("/api/kiro/accounts/" ++ account_id ++ "/name")
    (some (Json.obj [("account_name", Json.str account_name)])) none

/-- `KiroService.get_account_balance`. -/
def get_account_balance (env : Env) (s : KiroService) (user_id : Int)
    (account_id : String) : KiroService × List Event × Except ProxyError Json :=
  proxy_request env s user_id "GET" ("/api/kiro/accounts/" ++ account_id ++ "/balance")
    none none

/-- The `params` dict built by `KiroService.get_account_consumption`:
`limit`/`offset` are added under `is not None`, `start_date`/`end_date`
under Python truthiness (a supplied empty string is falsy and omitted).
Dict insertion order is the listed order. -/
def consumption_params (limit : Option Int) (offset : Option Int)
    (start_date : Option String) (end_date : Option String) :
    List (String × ParamVal) :=
  (match limit with
   | some l => [("limit", ParamVal.int l)]
   | none => []) ++
  (match offset with
   | some o => [("offset", ParamVal.int o)]
   | none => []) ++
  (match start_date with
   | some sd => if sd = "" then [] else [("start_date", ParamVal.str sd)]
   | none => []) ++
  (match end_date with
   | some ed => if ed = "" then [] else [("end_date", ParamVal.str ed)]
   | none => [])

/-- `KiroService.get_account_consumption`. -/
def get_account_consumption (env : Env) (s : KiroService) (user_id : Int)
    (account_id : String) (limit : Option Int) (offset : Option Int)
    (start_date : Option String) (end_date : Option String) :
    KiroService × List Event × Except ProxyError Json :=
  proxy_request env s user_id "GET"
    ("/api/kiro/accounts/" ++ account_id ++ "/consumption") none
    (some (consumption_params limit offset start_date end_date))

/-- The `params` dict built by `KiroService.get_user_consumption_stats`:
both keys are added under Python truthiness. -/
def stats_params (start_date : Option String) (end_date : Option String) :
    List (String × ParamVal) :=
  (match start_date with
   | some sd => if sd = "" then [] else [("start_date", ParamVal.str sd)]
   | none => []) ++
  (match end_date with
   | some ed => if ed = "" then [] else [("end_date", ParamVal.str ed)]
   | none => [])

/-- `KiroService.get_user_consumption_stats`. -/
def get_user_consumption_stats (env : Env) (s : KiroService) (user_id : Int)
    (start_date : Option String) (end_date : Option String) :
    KiroService × List Event × Except ProxyError Json :=
  proxy_request env s user_id "GET" "/api/kiro/consumption/stats" none
    (some (stats_params start_date end_date))

/-- `KiroService.delete_account`. -/
def delete_account (env : Env) (s : KiroService) (user_id : Int)
    (account_id : String) : KiroService × List Event × Except ProxyError Json :=
  proxy_request env s user_id "DELETE" ("/api/kiro/accounts/" ++ account_id) none none

/-- `KiroService.SUPPORTED_MODELS`: the hardcoded class-level model list. -/
def SUPPORTED_MODELS : List String :=
  [ "claude-sonnet-4-5"
  , "claude-sonnet-4-5-20250929"
  , "claude-sonnet-4-20250514"
  , "claude-opus-4-5-20251101"
  , "claude-haiku-4-5-20251001" ]

/-- `KiroService.get_models`: proxies `GET /v1/kiro/models` upstream; it
does not consult `SUPPORTED_MODELS`. -/
def get_models (env : Env) (s : KiroService) (user_id : Int) :
    KiroService × List Event × Except ProxyError Json :=
  proxy_request env s user_id "GET" "/v1/kiro/models" none none

/-- `KiroService.chat_completions` (non-streaming). -/
def chat_completions (env : Env) (s : KiroService) (user_id : Int)
    (request_data : Json) : KiroService × List Event × Except ProxyError Json :=
  proxy_request env s user_id "POST" "/v1/kiro/chat/completions"
    (some request_data) none

/-- `KiroService.chat_completions_stream`: re-yields every chunk of the
inner generator unchanged (`async for chunk ...: yield chunk`). -/
def chat_completions_stream (env : Env) (s : KiroService) (user_id : Int)
    (request_data : Json) (consume : Option Nat) :
    KiroService × List Event × StreamOutcome :=
  proxy_stream_request env s user_id "POST" "/v1/kiro/chat/completions"
    (some request_data) consume

/-! ### Helper predicates on traces and environments -/

/-- "No record for this user, or the record is inactive": the merged
condition under which `_get_user_plugin_key` raises. -/
def noActiveKey (env : Env) (user_id : Int) : Bool :=
  match env.get_by_user_id user_id with
  | none => true
  | some r => !r.is_active

/-- The effect events credential resolution produces for this user:
always a fresh store lookup, plus a decryption when an active record exists. -/
def keyEvents (env : Env) (user_id : Int) : List Event :=
  match env.get_by_user_id user_id with
  | none => [Event.storeLookup user_id]
  | some r =>
      if r.is_active then [Event.storeLookup user_id, Event.decryptKey r.api_key]
      else [Event.storeLookup user_id]

/-- Is this event an outbound HTTP interaction (request sent or streaming
connection opened)? -/
def Event.isOutbound : Event → Bool
  | Event.httpRequest _ => true
  | Event.connOpen _ => true
  | _ => false

/-- Is this event a connection open or close of the streaming transport? -/
def Event.isConn : Event → Bool
  | Event.connOpen _ => true
  | Event.connClose => true
  | _ => false

/-- Is this event a yielded byte chunk? -/
def Event.isChunk : Event → Bool
  | Event.chunk _ => true
  | _ => false

/-- The subsequence of connection open/close events of a trace. -/
def connEvents (tr : List Event) : List Event := tr.filter Event.isConn

/-- The subsequence of yielded-chunk events of a trace. -/
def chunkEvents (tr : List Event) : List Event := tr.filter Event.isChunk

/-- The result value of every method when credential resolution fails:
state unchanged, trace holds only the store lookup, and the error is the
single merged `ValueError` (`NotConfiguredError`). -/
def notConfiguredResult (s : KiroService) (user_id : Int) :
    KiroService × List Event × Except ProxyError Json :=
  (s, [Event.storeLookup user_id],
    Except.error (ProxyError.notConfigured keyNotConfiguredMsg))

/-- As `notConfiguredResult`, for the streaming proxy. -/
def notConfiguredStreamResult (s : KiroService) (user_id : Int) :
    KiroService × List Event × StreamOutcome :=
  (s, [Event.storeLookup user_id], StreamOutcome.notConfigured keyNotConfiguredMsg)

/-- The `Request` `_proxy_request` assembles once the key of record `r`
has been decrypted. -/
def mkRequest (env : Env) (s : KiroService) (r : PluginApiKeyRecord)
    (method path : String) (json_data : Option Json)
    (params : Option (List (String × ParamVal))) : Request :=
  { method := method
    url := s.base_url ++ path
    json_data := json_data
    params := params
    headers := [("Authorization", "Bearer " ++ env.decrypt_api_key r.api_key)]
    timeout := 300 }

/-- The `StreamRequest` `_proxy_stream_request` assembles once the key of
record `r` has been decrypted. -/
def mkStreamRequest (env : Env) (s : KiroService) (r : PluginApiKeyRecord)
    (method path : String) (json_data : Option Json) : StreamRequest :=
  { method := method
    url := s.base_url ++ path
    json_data := json_data
    headers := [("Authorization", "Bearer " ++ env.decrypt_api_key r.api_key)]
    timeout := 300 }

/-! ### Master lemmas about the two proxy primitives -/

/-- When the user has no active credential record, the single-response
proxy stops at the merged `ValueError`, with only the store lookup in the
trace. -/
theorem proxy_request_no_key (env : Env) (s : KiroService) (user_id : Int)
    (method path : String) (json_data : Option Json)
    (params : Option (List (String × ParamVal)))
    (h : noActiveKey env user_id = true) :
    proxy_request env s user_id method path json_data params =
      notConfiguredResult s user_id := by
  unfold noActiveKey at h
  cases hk : env.get_by_user_id user_id with
  | none =>
      simp [proxy_request, get_user_plugin_key, hk, notConfiguredResult]
  | some r =>
      rw [hk] at h
      simp only [Bool.not_eq_true'] at h
      simp [proxy_request, get_user_plugin_key, hk, h, notConfiguredResult]

/-- When the user has no active credential record, the streaming proxy
stops at the merged `ValueError`, with only the store lookup in the
trace. -/
theorem proxy_stream_request_no_key (env : Env) (s : KiroService) (user_id : Int)
    (method path : String) (json_data : Option Json) (consume : Option Nat)
    (h : noActiveKey env user_id = true) :
    proxy_stream_request env s user_id method path json_data consume =
      notConfiguredStreamResult s user_id := by
  unfold noActiveKey at h
  cases hk : env.get_by_user_id user_id with
  | none =>
      simp [proxy_stream_request, get_user_plugin_key, hk, notConfiguredStreamResult]
  | some r =>
      rw [hk] at h
      simp only [Bool.not_eq_true'] at h
      simp [proxy_stream_request, get_user_plugin_key, hk, h, notConfiguredStreamResult]

/-- With an active credential record, the single-response proxy issues
exactly one request and relays the upstream's answer: the parsed body on a
2xx status, the `HTTPStatusError` (status code and body) otherwise. -/
theorem proxy_request_active (env : Env) (s : KiroService) (user_id : Int)
    (r : PluginApiKeyRecord) (method path : String) (json_data : Option Json)
    (params : Option (List (String × ParamVal)))
    (hk : env.get_by_user_id user_id = some r) (ha : r.is_active = true) :
    proxy_request env s user_id method path json_data params =
      (s, [Event.storeLookup user_id, Event.decryptKey r.api_key,
           Event.httpRequest (mkRequest env s r method path json_data params)],
        if (env.send (mkRequest env s r method path json_data params)).is_success then
          Except.ok (env.send (mkRequest env s r method path json_data params)).body
        else
          Except.error (ProxyError.upstream
            (env.send (mkRequest env s r method path json_data params)).status_code
            (env.send (mkRequest env s r method path json_data params)).body)) := by
  unfold proxy_request get_user_plugin_key
  rw [hk]
  simp only [ha, if_true, mkRequest]
  split <;> simp_all

/-- With an active credential record and a non-2xx initial status, the
streaming proxy opens and closes the connection and fails with the
`HTTPStatusError` without yielding any chunk, for every consumer. -/
theorem proxy_stream_request_active_err (env : Env) (s : KiroService) (user_id : Int)
    (r : PluginApiKeyRecord) (method path : String) (json_data : Option Json)
    (consume : Option Nat)
    (hk : env.get_by_user_id user_id = some r) (ha : r.is_active = true)
    (hbad : (env.sendStream (mkStreamRequest env s r method path json_data)).is_success
              = false) :
    proxy_stream_request env s user_id method path json_data consume =
      (s, [Event.storeLookup user_id, Event.decryptKey r.api_key,
           Event.connOpen (mkStreamRequest env s r method path json_data),
           Event.connClose],
        StreamOutcome.upstreamError
          (env.sendStream (mkStreamRequest env s r method path json_data)).status_code
          (env.sendStream (mkStreamRequest env s r method path json_data)).body) := by
  simp only [mkStreamRequest] at hbad ⊢
  simp [proxy_stream_request, get_user_plugin_key, hk, ha, hbad]

/-- With an active credential record, a 2xx initial status, and a consumer
that drains the stream, the streaming proxy yields exactly the upstream's
chunks in order, closes the connection, and reports normal exhaustion (or
the mid-stream transport failure, after all delivered chunks). -/
theorem proxy_stream_request_active_drain (env : Env) (s : KiroService) (user_id : Int)
    (r : PluginApiKeyRecord) (method path : String) (json_data : Option Json)
    (hk : env.get_by_user_id user_id = some r) (ha : r.is_active = true)
    (hgood : (env.sendStream (mkStreamRequest env s r method path json_data)).is_success
               = true) :
    proxy_stream_request env s user_id method path json_data none =
      (s, [Event.storeLookup user_id, Event.decryptKey r.api_key,
           Event.connOpen (mkStreamRequest env s r method path json_data)]
          ++ (env.sendStream (mkStreamRequest env s r method path json_data)).chunks.map
               Event.chunk
          ++ [Event.connClose],
        if (env.sendStream (mkStreamRequest env s r method path json_data)).mid_stream_fail
        then StreamOutcome.transportError
               (env.sendStream (mkStreamRequest env s r method path json_data)).chunks
        else StreamOutcome.done
               (env.sendStream (mkStreamRequest env s r method path json_data)).chunks) := by
  simp only [mkStreamRequest] at hgood ⊢
  simp [proxy_stream_request, get_user_plugin_key, hk, ha, hgood]

/-- With an active credential record, a 2xx initial status, and a consumer
that stops after `k` chunks, the streaming proxy yields the first `k`
chunks (all of them when `k` exceeds the stream) and closes the
connection; a consumer that stops early never sees chunks beyond its
demand. -/
theorem proxy_stream_request_active_take (env : Env) (s : KiroService) (user_id : Int)
    (r : PluginApiKeyRecord) (method path : String) (json_data : Option Json) (k : Nat)
    (hk : env.get_by_user_id user_id = some r) (ha : r.is_active = true)
    (hgood : (env.sendStream (mkStreamRequest env s r method path json_data)).is_success
               = true) :
    proxy_stream_request env s user_id method path json_data (some k) =
      (s, [Event.storeLookup user_id, Event.decryptKey r.api_key,
           Event.connOpen (mkStreamRequest env s r method path json_data)]
          ++ ((env.sendStream (mkStreamRequest env s r method path json_data)).chunks.take
                k).map Event.chunk
          ++ [Event.connClose],
        if k < (env.sendStream (mkStreamRequest env s r method path json_data)).chunks.length
        then StreamOutcome.aborted
               ((env.sendStream (mkStreamRequest env s r method path json_data)).chunks.take k)
        else if (env.sendStream (mkStreamRequest env s r method path
                    json_data)).mid_stream_fail
        then StreamOutcome.transportError
               (env.sendStream (mkStreamRequest env s r method path json_data)).chunks
        else StreamOutcome.done
               (env.sendStream (mkStreamRequest env s r method path json_data)).chunks) := by
  simp only [mkStreamRequest] at hgood ⊢
  simp only [proxy_stream_request, get_user_plugin_key, hk, ha, if_true, hgood]
  by_cases hlen :
      k < (env.sendStream
            { method := method, url := s.base_url ++ path, json_data := json_data,
              headers := [("Authorization", "Bearer " ++ env.decrypt_api_key r.api_key)],
              timeout := 300 }).chunks.length
  · simp [hlen]
  · simp only [hlen, if_false]
    rw [List.take_of_length_le (Nat.le_of_not_lt hlen)]
    simp

/-- Frame lemma for the single-response proxy: the service value is
returned unchanged and the trace begins with a fresh credential
resolution (store lookup, plus decryption when an active record exists). -/
theorem proxy_request_frame (env : Env) (s : KiroService) (user_id : Int)
    (method path : String) (json_data : Option Json)
    (params : Option (List (String × ParamVal))) :
    (proxy_request env s user_id method path json_data params).1 = s ∧
    keyEvents env user_id <+:
      (proxy_request env s user_id method path json_data params).2.1 := by
  cases hk : env.get_by_user_id user_id with
  | none => simp [proxy_request, get_user_plugin_key, keyEvents, hk]
  | some r =>
      cases ha : r.is_active with
      | false => simp [proxy_request, get_user_plugin_key, keyEvents, hk, ha]
      | true =>
          refine ⟨?_, ?_⟩ <;>
            simp only [proxy_request, get_user_plugin_key, keyEvents, hk, ha, if_true] <;>
            split
          · rfl
          · rfl
          · exact List.prefix_append _ _
          · exact List.prefix_append _ _

/-- Frame lemma for the streaming proxy: the service value is returned
unchanged and the trace begins with a fresh credential resolution. -/
theorem proxy_stream_request_frame (env : Env) (s : KiroService) (user_id : Int)
    (method path : String) (json_data : Option Json) (consume : Option Nat) :
    (proxy_stream_request env s user_id method path json_data consume).1 = s ∧
    keyEvents env user_id <+:
      (proxy_stream_request env s user_id method path json_data consume).2.1 := by
  cases hk : env.get_by_user_id user_id with
  | none => simp [proxy_stream_request, get_user_plugin_key, keyEvents, hk]
  | some r =>
      cases ha : r.is_active with
      | false => simp [proxy_stream_request, get_user_plugin_key, keyEvents, hk, ha]
      | true =>
          refine ⟨?_, ?_⟩ <;>
            simp only [proxy_stream_request, get_user_plugin_key, keyEvents, hk, ha,
              if_true] <;>
            cases consume <;>
            (repeat' split) <;>
            first
            | rfl
            | exact ⟨_, rfl⟩

/-! ### Concrete test fixtures -/

/-- A concrete service value, as `KiroService(db)` builds it. -/
def serviceW : KiroService :=
  KiroService.init 1 { plugin_api_base_url := "http://plugin.local" }

/-- A concrete environment whose credential store has no record for any
user. -/
def envNoKey : Env :=
  { get_by_user_id := fun _ => none
    decrypt_api_key := fun k => k
    send := fun _ => { status_code := 200, body := Json.null }
    sendStream := fun _ =>
      { status_code := 200, body := Json.null, chunks := [], mid_stream_fail := false } }

/-- A concrete active credential record. -/
def recW : PluginApiKeyRecord := { api_key := "enc-key", is_active := true }

/-- A concrete environment with an active record for every user and a
successful upstream. -/
def envOk : Env :=
  { get_by_user_id := fun _ => some recW
    decrypt_api_key := fun k => "dec:" ++ k
    send := fun _ => { status_code := 200, body := Json.obj [("ok", Json.bool true)] }
    sendStream := fun _ =>
      { status_code := 200, body := Json.null, chunks := [[97], [98], [99]],
        mid_stream_fail := false } }

/-! ### C1 -/

/-- The behaviour claim C1 asserts of every public method when the user
has no active credential record: the call returns the single merged
not-configured error, the state is untouched, and the trace holds only
the store lookup — in particular, no outbound HTTP event. -/
def c1NoActiveKeyBehaviour (env : Env) (s : KiroService) (user_id : Int) : Prop :=
  (∀ method path json_data params,
      proxy_request env s user_id method path json_data params =
        notConfiguredResult s user_id)
  ∧ (∀ method path json_data consume,
      proxy_stream_request env s user_id method path json_data consume =
        notConfiguredStreamResult s user_id)
  ∧ (∀ provider is_shared,
      get_oauth_authorize_url env s user_id provider is_shared =
        notConfiguredResult s user_id)
  ∧ (∀ state,
      get_oauth_status env s user_id state = notConfiguredResult s user_id)
  ∧ (∀ account_data,
      create_account env s user_id account_data = notConfiguredResult s user_id)
  ∧ get_accounts env s user_id = notConfiguredResult s user_id
  ∧ (∀ account_id,
      get_account env s user_id account_id = notConfiguredResult s user_id)
  ∧ (∀ account_id status,
      update_account_status env s user_id account_id status =
        notConfiguredResult s user_id)
  ∧ (∀ account_id account_name,
      update_account_name env s user_id account_id account_name =
        notConfiguredResult s user_id)
  ∧ (∀ account_id,
      get_account_balance env s user_id account_id = notConfiguredResult s user_id)
  ∧ (∀ account_id limit offset start_date end_date,
      get_account_consumption env s user_id account_id limit offset start_date end_date =
        notConfiguredResult s user_id)
  ∧ (∀ start_date end_date,
      get_user_consumption_stats env s user_id start_date end_date =
        notConfiguredResult s user_id)
  ∧ (∀ account_id,
      delete_account env s user_id account_id = notConfiguredResult s user_id)
  ∧ get_models env s user_id = notConfiguredResult s user_id
  ∧ (∀ request_data,
      chat_completions env s user_id request_data = notConfiguredResult s user_id)
  ∧ (∀ request_data consume,
      chat_completions_stream env s user_id request_data consume =
        notConfiguredStreamResult s user_id)
  ∧ (notConfiguredResult s user_id).2.1.all (fun e => ! e.isOutbound) = true
  ∧ (notConfiguredStreamResult s user_id).2.1.all (fun e => ! e.isOutbound) = true

/-- **C1.** For every user identifier for which the credential store
returns no record, or a record whose active flag is false, every public
method of the service (both proxies and every catalogue method built on
them) fails with the not-configured error before any outbound HTTP call
is attempted, and the error is the same value in both cases. -/
theorem c1_not_configured_blocks_all_methods (env : Env) (s : KiroService)
    (user_id : Int) (h : noActiveKey env user_id = true) :
    c1NoActiveKeyBehaviour env s user_id := by
  refine ⟨fun m p j q => proxy_request_no_key env s user_id m p j q h,
          fun m p j c => proxy_stream_request_no_key env s user_id m p j c h,
          fun a b => proxy_request_no_key env s user_id _ _ _ _ h,
          fun a => proxy_request_no_key env s user_id _ _ _ _ h,
          fun a => proxy_request_no_key env s user_id _ _ _ _ h,
          proxy_request_no_key env s user_id _ _ _ _ h,
          fun a => proxy_request_no_key env s user_id _ _ _ _ h,
          fun a b => proxy_request_no_key env s user_id _ _ _ _ h,
          fun a b => proxy_request_no_key env s user_id _ _ _ _ h,
          fun a => proxy_request_no_key env s user_id _ _ _ _ h,
          fun a b c d e => proxy_request_no_key env s user_id _ _ _ _ h,
          fun a b => proxy_request_no_key env s user_id _ _ _ _ h,
          fun a => proxy_request_no_key env s user_id _ _ _ _ h,
          proxy_request_no_key env s user_id _ _ _ _ h,
          fun a => proxy_request_no_key env s user_id _ _ _ _ h,
          fun a c => proxy_stream_request_no_key env s user_id _ _ _ c h,
          rfl, rfl⟩

/-- Witness for C1: a store with no record for user 0 satisfies the
hypothesis, and the conclusion holds there. -/
theorem c1_witness :
    noActiveKey envNoKey 0 = true ∧ c1NoActiveKeyBehaviour envNoKey serviceW 0 :=
  ⟨rfl, c1_not_configured_blocks_all_methods envNoKey serviceW 0 rfl⟩

/-! ### C10 -/

/-- **C10.** Asymmetry in optional-parameter handling: the integer
parameters `limit`/`offset` are included whenever they are not `None`
(an explicit 0 is sent), while the string parameters
`start_date`/`end_date` are included only when truthy — an explicitly
supplied empty string is omitted, indistinguishable from leaving the
parameter unset; a non-empty string is included. -/
theorem c10_param_inclusion_asymmetry :
    (∀ (l : Int) (offset : Option Int) (sd ed : Option String),
        ("limit", ParamVal.int l) ∈ consumption_params (some l) offset sd ed)
  ∧ (∀ (limit : Option Int) (o : Int) (sd ed : Option String),
        ("offset", ParamVal.int o) ∈ consumption_params limit (some o) sd ed)
  ∧ (∀ (limit offset : Option Int) (ed : Option String),
        consumption_params limit offset (some "") ed =
          consumption_params limit offset none ed)
  ∧ (∀ (limit offset : Option Int) (sd : Option String),
        consumption_params limit offset sd (some "") =
          consumption_params limit offset sd none)
  ∧ (∀ ed, stats_params (some "") ed = stats_params none ed)
  ∧ (∀ sd, stats_params sd (some "") = stats_params sd none)
  ∧ consumption_params (some 0) (some 0) none none =
      [("limit", ParamVal.int 0), ("offset", ParamVal.int 0)]
  ∧ "start_date" ∉ (consumption_params none none (some "") none).map Prod.fst
  ∧ consumption_params none none (some "2024-01-01") none =
      [("start_date", ParamVal.str "2024-01-01")] := by
  refine ⟨?_, ?_, ?_, ?_, ?_, ?_, rfl, ?_, rfl⟩
  · intro l offset sd ed
    simp [consumption_params]
  · intro limit o sd ed
    cases limit <;> simp [consumption_params]
  · intro limit offset ed
    simp [consumption_params]
  · intro limit offset sd
    simp [consumption_params]
  · intro ed
    simp [stats_params]
  · intro sd
    simp [stats_params]
  · simp [consumption_params]

/-! ### C2 -/

/-- The request `get_account_consumption` sends when the user's record
`r` is active. -/
def consumptionRequest (env : Env) (s : KiroService) (r : PluginApiKeyRecord)
    (account_id : String) (limit offset : Option Int)
    (start_date end_date : Option String) : Request :=
  mkRequest env s r "GET" ("/api/kiro/accounts/" ++ account_id ++ "/consumption") none
    (some (consumption_params limit offset start_date end_date))

/-- The request `get_user_consumption_stats` sends when the user's record
`r` is active. -/
def statsRequest (env : Env) (s : KiroService) (r : PluginApiKeyRecord)
    (start_date end_date : Option String) : Request :=
  mkRequest env s r "GET" "/api/kiro/consumption/stats" none
    (some (stats_params start_date end_date))

/-- The behaviour claim C2 asserts: each optional parameter the caller
leaves unset is absent from the keys of the outgoing query parameters;
with only `limit = 10` supplied, the query holds exactly that single
pair; and the request the two consumption operations actually send
carries exactly the built parameter list. -/
def c2UnsetParamsOmitted (env : Env) (s : KiroService) (user_id : Int)
    (r : PluginApiKeyRecord) (account_id : String) : Prop :=
  (∀ offset start_date end_date,
      "limit" ∉ (consumption_params none offset start_date end_date).map Prod.fst)
  ∧ (∀ limit start_date end_date,
      "offset" ∉ (consumption_params limit none start_date end_date).map Prod.fst)
  ∧ (∀ limit offset end_date,
      "start_date" ∉ (consumption_params limit offset none end_date).map Prod.fst)
  ∧ (∀ limit offset start_date,
      "end_date" ∉ (consumption_params limit offset start_date none).map Prod.fst)
  ∧ (∀ end_date, "start_date" ∉ (stats_params none end_date).map Prod.fst)
  ∧ (∀ start_date, "end_date" ∉ (stats_params start_date none).map Prod.fst)
  ∧ consumption_params (some 10) none none none = [("limit", ParamVal.int 10)]
  ∧ (∀ limit offset start_date end_date,
      (get_account_consumption env s user_id account_id limit offset start_date
          end_date).2.1 =
        [Event.storeLookup user_id, Event.decryptKey r.api_key,
         Event.httpRequest
           (consumptionRequest env s r account_id limit offset start_date end_date)])
  ∧ (∀ start_date end_date,
      (get_user_consumption_stats env s user_id start_date end_date).2.1 =
        [Event.storeLookup user_id, Event.decryptKey r.api_key,
         Event.httpRequest (statsRequest env s r start_date end_date)])

/-- **C2.** For every optional query parameter of the consumption-list
and aggregate-consumption-stats operations left unset by the caller, the
outgoing request omits that key entirely; in particular, supplying only
`limit = 10` yields exactly the single pair `limit = 10`. -/
theorem c2_unset_params_omitted (env : Env) (s : KiroService) (user_id : Int)
    (r : PluginApiKeyRecord) (account_id : String)
    (hk : env.get_by_user_id user_id = some r) (ha : r.is_active = true) :
    c2UnsetParamsOmitted env s user_id r account_id := by
  refine ⟨?_, ?_, ?_, ?_, ?_, ?_, rfl, ?_, ?_⟩
  · intro offset sd ed
    cases offset <;> cases sd <;> cases ed <;>
      simp [consumption_params]
  · intro limit sd ed
    cases limit <;> cases sd <;> cases ed <;>
      simp [consumption_params]
  · intro limit offset ed
    cases limit <;> cases offset <;> cases ed <;>
      simp [consumption_params]
  · intro limit offset sd
    cases limit <;> cases offset <;> cases sd <;>
      simp [consumption_params]
  · intro ed
    cases ed <;> simp [stats_params]
  · intro sd
    cases sd <;> simp [stats_params]
  · intro limit offset sd ed
    simp only [get_account_consumption, consumptionRequest]
    rw [proxy_request_active env s user_id r "GET"
          ("/api/kiro/accounts/" ++ account_id ++ "/consumption") none
          (some (consumption_params limit offset sd ed)) hk ha]
  · intro sd ed
    simp only [get_user_consumption_stats, statsRequest]
    rw [proxy_request_active env s user_id r "GET" "/api/kiro/consumption/stats" none
          (some (stats_params sd ed)) hk ha]

/-- Witness for C2 at a concrete active record. -/
theorem c2_witness :
    envOk.get_by_user_id 0 = some recW ∧ recW.is_active = true ∧
      c2UnsetParamsOmitted envOk serviceW 0 recW "acc-1" :=
  ⟨rfl, rfl, c2_unset_params_omitted envOk serviceW 0 recW "acc-1" rfl rfl⟩

/-! ### C3 -/

/-- Environment with an active record whose upstream answers every single
request with catalogue payload `A`. -/
def envModelsA : Env :=
  { get_by_user_id := fun _ => some recW
    decrypt_api_key := fun k => k
    send := fun _ => { status_code := 200, body := Json.str "upstream-catalogue-A" }
    sendStream := fun _ =>
      { status_code := 200, body := Json.null, chunks := [], mid_stream_fail := false } }

/-- Identical to `envModelsA` except the upstream answers with catalogue
payload `B`. -/
def envModelsB : Env :=
  { get_by_user_id := fun _ => some recW
    decrypt_api_key := fun k => k
    send := fun _ => { status_code := 200, body := Json.str "upstream-catalogue-B" }
    sendStream := fun _ =>
      { status_code := 200, body := Json.null, chunks := [], mid_stream_fail := false } }

/-- Counterexample to C3 as stated: for the same user with the same active
credential, changing only the upstream's response changes the result of
the list-supported-chat-models operation — `get_models` relays the
upstream body instead of returning the client-side static catalogue. -/
theorem c3_counterexample :
    (get_models envModelsA serviceW 0).2.2 ≠ (get_models envModelsB serviceW 0).2.2 := by
  simp [get_models, proxy_request, get_user_plugin_key, envModelsA, envModelsB, recW,
    Response.is_success, serviceW, KiroService.init]

/-- The request `get_models` sends when the user's record `r` is active. -/
def modelsRequest (env : Env) (s : KiroService) (r : PluginApiKeyRecord) : Request :=
  mkRequest env s r "GET" "/v1/kiro/models" none none

/-- The behaviour the amended C3 asserts: the five-entry catalogue exists
as client-side static data, but the list-models operation proxies
`GET /v1/kiro/models` upstream and relays the upstream's response. -/
def c3ModelsBehaviour (env : Env) (s : KiroService) (user_id : Int)
    (r : PluginApiKeyRecord) : Prop :=
  SUPPORTED_MODELS =
      [ "claude-sonnet-4-5", "claude-sonnet-4-5-20250929", "claude-sonnet-4-20250514"
      , "claude-opus-4-5-20251101", "claude-haiku-4-5-20251001" ]
  ∧ SUPPORTED_MODELS.length = 5
  ∧ get_models env s user_id =
      (s, [Event.storeLookup user_id, Event.decryptKey r.api_key,
           Event.httpRequest (modelsRequest env s r)],
        if (env.send (modelsRequest env s r)).is_success then
          Except.ok (env.send (modelsRequest env s r)).body
        else
          Except.error (ProxyError.upstream
            (env.send (modelsRequest env s r)).status_code
            (env.send (modelsRequest env s r)).body))

/-- **C3 (amended).** The service holds a fixed, hardcoded five-entry
model catalogue as client-side static data (`SUPPORTED_MODELS`), but the
list-supported-chat-models operation does not return it: for every user
with an active credential it proxies `GET /v1/kiro/models` to the
upstream gateway and returns the upstream's response. -/
theorem c3_models_static_but_proxied (env : Env) (s : KiroService) (user_id : Int)
    (r : PluginApiKeyRecord)
    (hk : env.get_by_user_id user_id = some r) (ha : r.is_active = true) :
    c3ModelsBehaviour env s user_id r := by
  refine ⟨rfl, rfl, ?_⟩
  simp only [get_models, modelsRequest]
  exact proxy_request_active env s user_id r "GET" "/v1/kiro/models" none none hk ha

/-- Witness for the amended C3 at a concrete active record. -/
theorem c3_witness :
    envModelsA.get_by_user_id 0 = some recW ∧ recW.is_active = true ∧
      c3ModelsBehaviour envModelsA serviceW 0 recW :=
  ⟨rfl, rfl, c3_models_static_but_proxied envModelsA serviceW 0 recW rfl rfl⟩

/-! ### C4 -/

/-- The behaviour C4 asserts when the upstream's answer to every single
request is the fixed response `resp`: each single-response proxy call
(and `get_account` in particular, which is a plain instance of it) sends
exactly one request, relays `resp.body` parsed on a 2xx status, and fails
with the upstream error carrying exactly `resp`'s status code and body
otherwise — no retry. -/
def c4UpstreamRelay (env : Env) (s : KiroService) (user_id : Int)
    (r : PluginApiKeyRecord) (resp : Response) : Prop :=
  (∀ method path json_data params,
      proxy_request env s user_id method path json_data params =
        (s, [Event.storeLookup user_id, Event.decryptKey r.api_key,
             Event.httpRequest (mkRequest env s r method path json_data params)],
          if resp.is_success then Except.ok resp.body
          else Except.error (ProxyError.upstream resp.status_code resp.body)))
  ∧ (∀ method path json_data params,
      ((proxy_request env s user_id method path json_data params).2.1.filter
          Event.isOutbound).length = 1)
  ∧ (∀ account_id,
      get_account env s user_id account_id =
        proxy_request env s user_id "GET" ("/api/kiro/accounts/" ++ account_id) none none)

/-- **C4.** For every single-response proxy call, a non-success upstream
status makes the call fail with the upstream error carrying exactly that
status code and exactly that response body, with exactly one outbound
request (no retry); a success status makes it return the response body as
the parsed JSON document. -/
theorem c4_upstream_error_relay (env : Env) (s : KiroService) (user_id : Int)
    (r : PluginApiKeyRecord) (resp : Response)
    (hk : env.get_by_user_id user_id = some r) (ha : r.is_active = true)
    (hsend : env.send = fun _ => resp) :
    c4UpstreamRelay env s user_id r resp := by
  refine ⟨?_, ?_, fun account_id => rfl⟩
  · intro method path json_data params
    rw [proxy_request_active env s user_id r method path json_data params hk ha, hsend]
  · intro method path json_data params
    rw [proxy_request_active env s user_id r method path json_data params hk ha]
    rfl

/-- The 404 response of the specification's concrete example. -/
def resp404 : Response :=
  { status_code := 404, body := Json.obj [("error", Json.str "not found")] }

/-- Environment with an active record whose upstream answers every single
request with `resp404`. -/
def env404 : Env :=
  { get_by_user_id := fun _ => some recW
    decrypt_api_key := fun k => k
    send := fun _ => resp404
    sendStream := fun _ =>
      { status_code := 200, body := Json.null, chunks := [], mid_stream_fail := false } }

/-- Witness for C4: with an upstream answering 404 and body
`{"error":"not found"}`, `get_account` fails with the upstream error
carrying exactly that status and body. -/
theorem c4_witness :
    env404.get_by_user_id 0 = some recW ∧ recW.is_active = true ∧
      env404.send = (fun _ => resp404) ∧
      c4UpstreamRelay env404 serviceW 0 recW resp404 ∧
      (get_account env404 serviceW 0 "a-1").2.2 =
        Except.error (ProxyError.upstream 404
          (Json.obj [("error", Json.str "not found")])) :=
  ⟨rfl, rfl, rfl, c4_upstream_error_relay env404 serviceW 0 recW resp404 rfl rfl rfl, rfl⟩

/-! ### C6 -/

/-- The behaviour C6 asserts: the caller's request body reaches the
upstream verbatim in the request's JSON payload, and on success the
upstream's JSON response document is returned to the caller unmodified. -/
def c6ChatRoundTrip (env : Env) (s : KiroService) (user_id : Int)
    (r : PluginApiKeyRecord) : Prop :=
  ∀ request_data : Json,
    (mkRequest env s r "POST" "/v1/kiro/chat/completions"
        (some request_data) none).json_data = some request_data
    ∧ chat_completions env s user_id request_data =
        (s, [Event.storeLookup user_id, Event.decryptKey r.api_key,
             Event.httpRequest (mkRequest env s r "POST" "/v1/kiro/chat/completions"
               (some request_data) none)],
          if (env.send (mkRequest env s r "POST" "/v1/kiro/chat/completions"
                (some request_data) none)).is_success then
            Except.ok (env.send (mkRequest env s r "POST" "/v1/kiro/chat/completions"
              (some request_data) none)).body
          else
            Except.error (ProxyError.upstream
              (env.send (mkRequest env s r "POST" "/v1/kiro/chat/completions"
                (some request_data) none)).status_code
              (env.send (mkRequest env s r "POST" "/v1/kiro/chat/completions"
                (some request_data) none)).body))

/-- **C6.** Round-trip: every request body supplied to the non-streaming
chat-completion operation is forwarded to the upstream as-is (equal JSON
payload), and the upstream's JSON response document is returned to the
caller unmodified. -/
theorem c6_chat_round_trip (env : Env) (s : KiroService) (user_id : Int)
    (r : PluginApiKeyRecord)
    (hk : env.get_by_user_id user_id = some r) (ha : r.is_active = true) :
    c6ChatRoundTrip env s user_id r := by
  intro request_data
  refine ⟨rfl, ?_⟩
  simp only [chat_completions]
  exact proxy_request_active env s user_id r "POST" "/v1/kiro/chat/completions"
    (some request_data) none hk ha

/-- Witness for C6 at a concrete active record and a 200 upstream. -/
theorem c6_witness :
    envOk.get_by_user_id 0 = some recW ∧ recW.is_active = true ∧
      c6ChatRoundTrip envOk serviceW 0 recW :=
  ⟨rfl, rfl, c6_chat_round_trip envOk serviceW 0 recW rfl rfl⟩

/-! ### C5 -/

/-- Chunk events are exactly the chunk events: filtering a mapped chunk
list by `isChunk` keeps everything. -/
theorem filter_isChunk_map_chunk (d : List Bytes) :
    (d.map Event.chunk).filter Event.isChunk = d.map Event.chunk := by
  induction d with
  | nil => rfl
  | cons a t ih => simp [Event.isChunk, ih]

/-- Mapped chunk lists contain no connection events. -/
theorem filter_isConn_map_chunk (d : List Bytes) :
    (d.map Event.chunk).filter Event.isConn = [] := by
  induction d with
  | nil => rfl
  | cons a t ih => simp [Event.isConn, ih]

/-- The behaviour C5 asserts when the upstream always streams exactly the
chunks `cs` with a 2xx status and no mid-stream failure: a consumer that
drains the streaming chat-completion call observes exactly the chunks
`cs`, byte-for-byte and in order, and then the stream ends normally with
no extra trailing chunk; a consumer that stops after `k` chunks observes
exactly the first `k` — chunks beyond the demand are never produced
(lazy, one-pass consumption). -/
def c5StreamDelivery (env : Env) (s : KiroService) (user_id : Int)
    (r : PluginApiKeyRecord) (request_data : Json) (cs : List Bytes) : Prop :=
  chat_completions_stream env s user_id request_data none =
      (s, [Event.storeLookup user_id, Event.decryptKey r.api_key,
           Event.connOpen (mkStreamRequest env s r "POST" "/v1/kiro/chat/completions"
             (some request_data))]
          ++ cs.map Event.chunk ++ [Event.connClose],
        StreamOutcome.done cs)
  ∧ chunkEvents (chat_completions_stream env s user_id request_data none).2.1 =
      cs.map Event.chunk
  ∧ ∀ k : Nat,
      chat_completions_stream env s user_id request_data (some k) =
        (s, [Event.storeLookup user_id, Event.decryptKey r.api_key,
             Event.connOpen (mkStreamRequest env s r "POST" "/v1/kiro/chat/completions"
               (some request_data))]
            ++ (cs.take k).map Event.chunk ++ [Event.connClose],
          if k < cs.length then StreamOutcome.aborted (cs.take k)
          else StreamOutcome.done cs)

/-- **C5.** For every successful streaming chat-completion call whose
upstream delivers a finite sequence of byte chunks, the consumer observes
exactly those chunks, byte-for-byte and in order, and the sequence then
ends with no extra trailing chunk; consumption is demand-driven and
one-pass. -/
theorem c5_stream_exact_chunks (env : Env) (s : KiroService) (user_id : Int)
    (r : PluginApiKeyRecord) (request_data : Json) (cs : List Bytes)
    (hk : env.get_by_user_id user_id = some r) (ha : r.is_active = true)
    (hstream : env.sendStream = fun _ =>
      { status_code := 200, body := Json.null, chunks := cs, mid_stream_fail := false }) :
    c5StreamDelivery env s user_id r request_data cs := by
  have hgood : (env.sendStream (mkStreamRequest env s r "POST"
      "/v1/kiro/chat/completions" (some request_data))).is_success = true := by
    rw [hstream]
    rfl
  have hdrain := proxy_stream_request_active_drain env s user_id r "POST"
    "/v1/kiro/chat/completions" (some request_data) hk ha hgood
  rw [hstream] at hdrain
  refine ⟨hdrain, ?_, ?_⟩
  · show chunkEvents (proxy_stream_request env s user_id "POST"
      "/v1/kiro/chat/completions" (some request_data) none).2.1 = cs.map Event.chunk
    rw [hdrain]
    simp [chunkEvents, List.filter_append, filter_isChunk_map_chunk, Event.isChunk]
  · intro k
    have htake := proxy_stream_request_active_take env s user_id r "POST"
      "/v1/kiro/chat/completions" (some request_data) k hk ha hgood
    rw [hstream] at htake
    simpa using htake

/-- Witness for C5: three upstream chunks `b"a"`, `b"b"`, `b"c"` are
observed exactly, in order, with normal termination. -/
theorem c5_witness :
    envOk.get_by_user_id 0 = some recW ∧ recW.is_active = true ∧
      envOk.sendStream = (fun _ =>
        { status_code := 200, body := Json.null, chunks := [[97], [98], [99]],
          mid_stream_fail := false }) ∧
      c5StreamDelivery envOk serviceW 0 recW Json.null [[97], [98], [99]] :=
  ⟨rfl, rfl, rfl,
    c5_stream_exact_chunks envOk serviceW 0 recW Json.null [[97], [98], [99]] rfl rfl rfl⟩

/-! ### C7 -/

/-- The behaviour C7 asserts when the upstream answers every streaming
request with the fixed non-success response `resp`: every streaming proxy
call (for every consumer) fails with the upstream error carrying `resp`'s
status code and body, the connection is opened and closed around the
failed status check, and the consumer observes zero chunks. -/
def c7StreamErrNoChunks (env : Env) (s : KiroService) (user_id : Int)
    (r : PluginApiKeyRecord) (resp : StreamResponse) : Prop :=
  ∀ method path json_data consume,
    proxy_stream_request env s user_id method path json_data consume =
      (s, [Event.storeLookup user_id, Event.decryptKey r.api_key,
           Event.connOpen (mkStreamRequest env s r method path json_data),
           Event.connClose],
        StreamOutcome.upstreamError resp.status_code resp.body)
    ∧ chunkEvents
        (proxy_stream_request env s user_id method path json_data consume).2.1 = []

/-- **C7.** For every streaming proxy call whose initial upstream response
status is non-success, the call fails with the upstream error before
yielding any data: the consumer observes zero chunks before the error. -/
theorem c7_stream_error_before_data (env : Env) (s : KiroService) (user_id : Int)
    (r : PluginApiKeyRecord) (resp : StreamResponse)
    (hk : env.get_by_user_id user_id = some r) (ha : r.is_active = true)
    (hstream : env.sendStream = fun _ => resp) (hbad : resp.is_success = false) :
    c7StreamErrNoChunks env s user_id r resp := by
  intro method path json_data consume
  have hb : (env.sendStream (mkStreamRequest env s r method path json_data)).is_success
      = false := by rw [hstream]; exact hbad
  have herr := proxy_stream_request_active_err env s user_id r method path json_data
    consume hk ha hb
  rw [hstream] at herr
  refine ⟨herr, ?_⟩
  rw [herr]
  rfl

/-- The non-success streaming response for the C7 witness: status 500;
the transport would have had a chunk, but it is never yielded. -/
def resp500 : StreamResponse :=
  { status_code := 500, body := Json.str "server error", chunks := [[120]],
    mid_stream_fail := false }

/-- Environment with an active record whose upstream answers every
streaming request with `resp500`. -/
def envStreamErr : Env :=
  { get_by_user_id := fun _ => some recW
    decrypt_api_key := fun k => k
    send := fun _ => { status_code := 200, body := Json.null }
    sendStream := fun _ => resp500 }

/-- Witness for C7 at a concrete 500 streaming upstream. -/
theorem c7_witness :
    envStreamErr.get_by_user_id 0 = some recW ∧ recW.is_active = true ∧
      envStreamErr.sendStream = (fun _ => resp500) ∧ resp500.is_success = false ∧
      c7StreamErrNoChunks envStreamErr serviceW 0 recW resp500 :=
  ⟨rfl, rfl, rfl, rfl,
    c7_stream_error_before_data envStreamErr serviceW 0 recW resp500 rfl rfl rfl rfl⟩

/-! ### C8 -/

/-- The behaviour C8 asserts of every public method: the service value
(database handle, settings, repository, base URL) comes back unchanged,
and the call's trace begins with a fresh credential resolution — a store
lookup (and a decryption when an active record exists) happens on every
call, so no token is cached across calls. -/
def c8FrameAndFreshLookup (env : Env) (s : KiroService) (user_id : Int) : Prop :=
  (keyEvents env user_id).head? = some (Event.storeLookup user_id)
  ∧ (∀ method path json_data params,
      (proxy_request env s user_id method path json_data params).1 = s
      ∧ keyEvents env user_id <+:
          (proxy_request env s user_id method path json_data params).2.1)
  ∧ (∀ method path json_data consume,
      (proxy_stream_request env s user_id method path json_data consume).1 = s
      ∧ keyEvents env user_id <+:
          (proxy_stream_request env s user_id method path json_data consume).2.1)
  ∧ (∀ provider is_shared,
      (get_oauth_authorize_url env s user_id provider is_shared).1 = s
      ∧ keyEvents env user_id <+:
          (get_oauth_authorize_url env s user_id provider is_shared).2.1)
  ∧ (∀ state,
      (get_oauth_status env s user_id state).1 = s
      ∧ keyEvents env user_id <+: (get_oauth_status env s user_id state).2.1)
  ∧ (∀ account_data,
      (create_account env s user_id account_data).1 = s
      ∧ keyEvents env user_id <+: (create_account env s user_id account_data).2.1)
  ∧ ((get_accounts env s user_id).1 = s
      ∧ keyEvents env user_id <+: (get_accounts env s user_id).2.1)
  ∧ (∀ account_id,
      (get_account env s user_id account_id).1 = s
      ∧ keyEvents env user_id <+: (get_account env s user_id account_id).2.1)
  ∧ (∀ account_id status,
      (update_account_status env s user_id account_id status).1 = s
      ∧ keyEvents env user_id <+:
          (update_account_status env s user_id account_id status).2.1)
  ∧ (∀ account_id account_name,
      (update_account_name env s user_id account_id account_name).1 = s
      ∧ keyEvents env user_id <+:
          (update_account_name env s user_id account_id account_name).2.1)
  ∧ (∀ account_id,
      (get_account_balance env s user_id account_id).1 = s
      ∧ keyEvents env user_id <+: (get_account_balance env s user_id account_id).2.1)
  ∧ (∀ account_id limit offset start_date end_date,
      (get_account_consumption env s user_id account_id limit offset start_date
          end_date).1 = s
      ∧ keyEvents env user_id <+:
          (get_account_consumption env s user_id account_id limit offset start_date
            end_date).2.1)
  ∧ (∀ start_date end_date,
      (get_user_consumption_stats env s user_id start_date end_date).1 = s
      ∧ keyEvents env user_id <+:
          (get_user_consumption_stats env s user_id start_date end_date).2.1)
  ∧ (∀ account_id,
      (delete_account env s user_id account_id).1 = s
      ∧ keyEvents env user_id <+: (delete_account env s user_id account_id).2.1)
  ∧ ((get_models env s user_id).1 = s
      ∧ keyEvents env user_id <+: (get_models env s user_id).2.1)
  ∧ (∀ request_data,
      (chat_completions env s user_id request_data).1 = s
      ∧ keyEvents env user_id <+: (chat_completions env s user_id request_data).2.1)
  ∧ (∀ request_data consume,
      (chat_completions_stream env s user_id request_data consume).1 = s
      ∧ keyEvents env user_id <+:
          (chat_completions_stream env s user_id request_data consume).2.1)

/-- **C8.** No public method mutates any local state of the service:
after every call, successful or failing, the service value is unchanged,
and the resolved token is never cached — every call's trace starts with a
fresh credential-store lookup (plus decryption when an active record
exists). -/
theorem c8_no_mutation_no_caching (env : Env) (s : KiroService) (user_id : Int) :
    c8FrameAndFreshLookup env s user_id := by
  refine ⟨?_,
          fun m p j q => proxy_request_frame env s user_id m p j q,
          fun m p j c => proxy_stream_request_frame env s user_id m p j c,
          fun a b => proxy_request_frame env s user_id _ _ _ _,
          fun a => proxy_request_frame env s user_id _ _ _ _,
          fun a => proxy_request_frame env s user_id _ _ _ _,
          proxy_request_frame env s user_id _ _ _ _,
          fun a => proxy_request_frame env s user_id _ _ _ _,
          fun a b => proxy_request_frame env s user_id _ _ _ _,
          fun a b => proxy_request_frame env s user_id _ _ _ _,
          fun a => proxy_request_frame env s user_id _ _ _ _,
          fun a b c d e => proxy_request_frame env s user_id _ _ _ _,
          fun a b => proxy_request_frame env s user_id _ _ _ _,
          fun a => proxy_request_frame env s user_id _ _ _ _,
          proxy_request_frame env s user_id _ _ _ _,
          fun a => proxy_request_frame env s user_id _ _ _ _,
          fun a c => proxy_stream_request_frame env s user_id _ _ _ c⟩
  cases h : env.get_by_user_id user_id with
  | none => simp [keyEvents, h]
  | some r => cases hr : r.is_active <;> simp [keyEvents, h, hr]

/-! ### C9 -/

/-- Traces ending in a connection close have that close as final event. -/
theorem getLast?_append_connClose (l : List Event) :
    (l ++ [Event.connClose]).getLast? = some Event.connClose := by
  simp

/-- Prefixes of mapped chunk lists contain no connection events. -/
theorem filter_isConn_take_map_chunk (k : Nat) (d : List Bytes) :
    ((d.map Event.chunk).take k).filter Event.isConn = [] := by
  rw [List.filter_eq_nil_iff]
  intro a ha
  obtain ⟨b, _, rfl⟩ := List.mem_map.mp (List.mem_of_mem_take ha)
  simp [Event.isConn]

/-- Scoped-connection lemma: a streaming proxy call either never opens a
connection (credential failure) or opens exactly one and closes it, with
the close as the final event of the trace — on normal exhaustion, on a
non-success status, on mid-stream failure and on early abandonment
alike. -/
theorem stream_conn_scoped (env : Env) (s : KiroService) (user_id : Int)
    (method path : String) (json_data : Option Json) (consume : Option Nat) :
    connEvents (proxy_stream_request env s user_id method path json_data consume).2.1
        = []
    ∨ ∃ q,
        connEvents (proxy_stream_request env s user_id method path json_data
            consume).2.1 = [Event.connOpen q, Event.connClose]
        ∧ (proxy_stream_request env s user_id method path json_data
            consume).2.1.getLast? = some Event.connClose := by
  by_cases h : noActiveKey env user_id = true
  · left
    rw [proxy_stream_request_no_key env s user_id method path json_data consume h]
    rfl
  · right
    obtain ⟨r, hk, ha⟩ : ∃ r, env.get_by_user_id user_id = some r
        ∧ r.is_active = true := by
      unfold noActiveKey at h
      cases hx : env.get_by_user_id user_id with
      | none => rw [hx] at h; simp at h
      | some r =>
          rw [hx] at h
          simp at h
          exact ⟨r, rfl, h⟩
    refine ⟨mkStreamRequest env s r method path json_data, ?_⟩
    by_cases hs : (env.sendStream (mkStreamRequest env s r method path
        json_data)).is_success = true
    · cases consume with
      | none =>
          rw [proxy_stream_request_active_drain env s user_id r method path json_data
            hk ha hs]
          constructor
          · simp [connEvents, List.filter_append, filter_isConn_map_chunk, Event.isConn]
          · exact getLast?_append_connClose _
      | some k =>
          rw [proxy_stream_request_active_take env s user_id r method path json_data k
            hk ha hs]
          constructor
          · simp [connEvents, List.filter_append, filter_isConn_map_chunk,
              filter_isConn_take_map_chunk, Event.isConn]
          · exact getLast?_append_connClose _
    · rw [proxy_stream_request_active_err env s user_id r method path json_data consume
        hk ha (Bool.eq_false_iff.mpr hs)]
      constructor
      · rfl
      · rfl

/-- **C9.** For every streaming proxy call, the underlying connection is
released on every exit path of the chunk sequence: normal exhaustion,
mid-stream failure, a non-success status, and early abandonment by the
consumer all close the connection exactly once, as the final event —
scoped acquisition, no leak. -/
theorem c9_connection_released_every_path (env : Env) (s : KiroService)
    (user_id : Int) (method path : String) (json_data : Option Json)
    (request_data : Json) (consume : Option Nat) :
    (connEvents (proxy_stream_request env s user_id method path json_data
          consume).2.1 = []
      ∨ ∃ q,
          connEvents (proxy_stream_request env s user_id method path json_data
              consume).2.1 = [Event.connOpen q, Event.connClose]
          ∧ (proxy_stream_request env s user_id method path json_data
              consume).2.1.getLast? = some Event.connClose)
    ∧ (connEvents (chat_completions_stream env s user_id request_data
          consume).2.1 = []
      ∨ ∃ q,
          connEvents (chat_completions_stream env s user_id request_data
              consume).2.1 = [Event.connOpen q, Event.connClose]
          ∧ (chat_completions_stream env s user_id request_data
              consume).2.1.getLast? = some Event.connClose) :=
  ⟨stream_conn_scoped env s user_id method path json_data consume,
   stream_conn_scoped env s user_id "POST" "/v1/kiro/chat/completions"
     (some request_data) consume⟩

end AntiHub
